import Mathlib

/-!
Verification of the finance analyst agent (src/src/analyst.py) against its
natural-language specification.

The development shallowly embeds the core logic of the repository:

* a `Json` value type standing for the Python objects produced by
  `json.loads` and consumed by `json.dumps`;
* `detectTaskType`, `getSystemPrompt`, `formatResponse`,
  `getFallbackResponse` and `analyze`, translated from the methods of
  `FinanceAnalyst`;
* `executeEvents`, translating the observable event trace of
  `AnalystExecutor.execute`.

Python semantics that matter here are made explicit: dictionary `get`,
truthiness of values (used by the `or` chains in `_format_response`),
exceptions (as `Except Unit`), and the two serialization modes of
`json.dumps` (default compact separators versus `indent=2`).

The single network call of `analyze` together with the `json.loads` of its
text is abstracted as an `Except Unit Json` parameter: `.error ()` stands
for a raised exception (network failure) or unparseable text, `.ok parsed`
for a successfully parsed JSON value.
-/

namespace FinanceAgent

/-- A JSON value, standing for the Python value returned by `json.loads`
(`None`, `bool`, `int`, `str`, `list`, `dict`). Numbers are modelled as
integers; no claim depends on float payloads. -/
inductive Json where
  | null : Json
  | bool (b : Bool) : Json
  | num (n : Int) : Json
  | str (s : String) : Json
  | arr (xs : List Json) : Json
  | obj (kvs : List (String × Json)) : Json

/-- Python truthiness of a JSON value: `None`, `False`, `0`, `""`, `[]` and
an empty dict are falsy, everything else is truthy. -/
def Json.truthy : Json → Bool
  | .null => false
  | .bool b => b
  | .num n => n != 0
  | .str s => s != ""
  | .arr xs => !xs.isEmpty
  | .obj kvs => !kvs.isEmpty

/-- First value bound to key `k` in an association list (dictionaries built
by `json.loads` have unique keys, so this is Python dict lookup). -/
def lookupKey (kvs : List (String × Json)) (k : String) : Option Json :=
  match kvs with
  | [] => none
  | (k0, v) :: rest => if k0 = k then some v else lookupKey rest k

/-- Python `d.get(k)`: `None` when the key is absent; raises (`.error`)
when the receiver is not a dict. -/
def Json.pyGet (j : Json) (k : String) : Except Unit Json :=
  match j with
  | .obj kvs => .ok ((lookupKey kvs k).getD .null)
  | _ => .error ()

/-- Python `d.get(k, default)`: the default when the key is absent; raises
(`.error`) when the receiver is not a dict. -/
def Json.pyGetD (j : Json) (k : String) (d : Json) : Except Unit Json :=
  match j with
  | .obj kvs => .ok ((lookupKey kvs k).getD d)
  | _ => .error ()

/-- Python `x or y` on JSON values: `x` when truthy, else `y`. -/
def pyOr (x y : Json) : Json :=
  if x.truthy then x else y

/-- The three task types returned by `FinanceAnalyst._detect_task_type`. -/
inductive TaskType where
  | riskClassification : TaskType
  | businessSummary : TaskType
  | consistencyCheck : TaskType
deriving DecidableEq

/-- The string value used for the task type in the Python source. -/
def TaskType.toStr : TaskType → String
  | .riskClassification => "risk_classification"
  | .businessSummary => "business_summary"
  | .consistencyCheck => "consistency_check"

/-- The name of the payload field of each task type (identical to the task
type string in this program). -/
def TaskType.payloadKey : TaskType → String
  | .riskClassification => "risk_classification"
  | .businessSummary => "business_summary"
  | .consistencyCheck => "consistency_check"

/-- Whether `pat` is an initial segment of `s` (over character lists). -/
def charsStartWith (pat s : List Char) : Bool :=
  match pat, s with
  | [], _ => true
  | _ :: _, [] => false
  | a :: ps, b :: ss => a == b && charsStartWith ps ss

/-- Whether `pat` occurs contiguously inside `s` (over character lists). -/
def charsContain (pat s : List Char) : Bool :=
  match s with
  | [] => pat.isEmpty
  | _ :: rest => charsStartWith pat s || charsContain pat rest

/-- Python substring test `pat in s`. -/
def containsSub (s pat : String) : Bool :=
  charsContain pat.toList s.toList

/-- Lowering of one character, as Python `str.lower` acts on the ASCII
range (the only range exercised by this program's keyword matching). -/
def lowerChar (c : Char) : Char :=
  if 65 ≤ c.toNat && c.toNat ≤ 90 then Char.ofNat (c.toNat + 32) else c

/-- Python `s.lower()` over the ASCII range, character by character. -/
def strLower (s : String) : String :=
  String.mk (s.toList.map lowerChar)

/-- Translation of `FinanceAnalyst._detect_task_type` (analyst.py lines
82-99): a case-insensitive priority cascade over the lowered prompt. -/
def detectTaskType (prompt : String) : TaskType :=
  let p := strLower prompt
  if containsSub p "task 1" || containsSub p "risk classification" then
    .riskClassification
  else if containsSub p "task 2" || containsSub p "business summary" then
    .businessSummary
  else if containsSub p "task 3" || containsSub p "consistency" then
    .consistencyCheck
  else if containsSub p "risk factor" || containsSub p "section 1a" then
    .riskClassification
  else if containsSub p "business" && containsSub p "section 1" then
    .businessSummary
  else
    .riskClassification

/-- Translation of `FinanceAnalyst._format_response` (analyst.py lines
164-196). Each Python `a or b or c or []` chain is a left-nested `pyOr`;
`.get` on a non-dict raises, which the `Except` monad propagates. -/
def formatResponse (parsed : Json) (taskType : TaskType) : Except Unit Json :=
  match taskType with
  | .riskClassification => do
      let a ← parsed.pyGet "risk_classification"
      let b ← parsed.pyGet "categories"
      let c ← parsed.pyGet "risk_categories"
      let categories := pyOr (pyOr (pyOr a b) c) (.arr [])
      pure (.obj [("task", .str "risk_classification"),
                  ("risk_classification", categories)])
  | .businessSummary => do
      let bs ← parsed.pyGet "business_summary"
      let summary := pyOr bs parsed
      let industry ← summary.pyGetD "industry" (.str "N/A")
      let products ← summary.pyGetD "products" (.str "N/A")
      let geography ← summary.pyGetD "geography" (.str "N/A")
      pure (.obj [("task", .str "business_summary"),
                  ("business_summary", .obj [("industry", industry),
                                             ("products", products),
                                             ("geography", geography)])])
  | .consistencyCheck => do
      let a ← parsed.pyGet "consistency_check"
      let b ← parsed.pyGet "discussed_risks"
      let c ← parsed.pyGet "consistent_risks"
      let risks := pyOr (pyOr (pyOr a b) c) (.arr [])
      pure (.obj [("task", .str "consistency_check"),
                  ("consistency_check", risks)])

/-- Translation of `FinanceAnalyst._get_fallback_response` (analyst.py
lines 198-219). -/
def getFallbackResponse : TaskType → Json
  | .riskClassification =>
      .obj [("task", .str "risk_classification"),
            ("risk_classification", .arr [.str "Market Risk", .str "Operational Risk"])]
  | .businessSummary =>
      .obj [("task", .str "business_summary"),
            ("business_summary", .obj [("industry", .str "Unable to determine"),
                                       ("products", .str "Unable to determine"),
                                       ("geography", .str "Unable to determine")])]
  | .consistencyCheck =>
      .obj [("task", .str "consistency_check"),
            ("consistency_check", .arr [])]

/-- A hexadecimal digit, lowercase, as emitted by Python json escapes. -/
def hexDigit (n : Nat) : Char :=
  if n < 10 then Char.ofNat (48 + n) else Char.ofNat (87 + n)

/-- Four lowercase hex digits of `n` (for a JSON string escape). -/
def hex4 (n : Nat) : String :=
  String.mk [hexDigit (n / 4096 % 16), hexDigit (n / 256 % 16),
             hexDigit (n / 16 % 16), hexDigit (n % 16)]

/-- Escape of one character inside a JSON string literal, following Python
json.dumps with its default ensure_ascii=True: the two-character escapes
for quote, backslash and control whitespace, a four-hex-digit escape for
other control or non-ASCII characters (a surrogate pair beyond the BMP),
and the character itself otherwise. -/
def escChar (c : Char) : String :=
  if c = Char.ofNat 34 then String.mk [Char.ofNat 92, Char.ofNat 34]
  else if c = Char.ofNat 92 then String.mk [Char.ofNat 92, Char.ofNat 92]
  else if c = Char.ofNat 10 then String.mk [Char.ofNat 92, Char.ofNat 110]
  else if c = Char.ofNat 13 then String.mk [Char.ofNat 92, Char.ofNat 114]
  else if c = Char.ofNat 9 then String.mk [Char.ofNat 92, Char.ofNat 116]
  else if c = Char.ofNat 8 then String.mk [Char.ofNat 92, Char.ofNat 98]
  else if c = Char.ofNat 12 then String.mk [Char.ofNat 92, Char.ofNat 102]
  else if c.toNat < 32 || c.toNat > 126 then
    if c.toNat ≥ 65536 then
      let n := c.toNat - 65536
      "\\u" ++ hex4 (55296 + n / 1024) ++ "\\u" ++ hex4 (56320 + n % 1024)
    else "\\u" ++ hex4 c.toNat
  else String.mk [c]

/-- A JSON string literal: quotes around the escaped characters. -/
def dumpsStr (s : String) : String :=
  "\"" ++ String.join (s.toList.map escChar) ++ "\""

/-- Serialization of an atomic (non-container) JSON value, shared by the
compact and the indented serializer. -/
def dumpsAtom : Json → String
  | .null => "null"
  | .bool true => "true"
  | .bool false => "false"
  | .num n => toString n
  | .str s => dumpsStr s
  | .arr _ => ""
  | .obj _ => ""

mutual

/-- Python `json.dumps(v)` with its default separators: items joined by
a comma and a space, keys and values joined by a colon and a space. -/
def dumpsCompact : Json → String
  | .arr xs => "[" ++ dumpsCompactArr xs ++ "]"
  | .obj kvs => "\x7b" ++ dumpsCompactObj kvs ++ "\x7d"
  | v => dumpsAtom v

/-- Comma-and-space separated compact items of an array. -/
def dumpsCompactArr : List Json → String
  | [] => ""
  | [x] => dumpsCompact x
  | x :: xs => dumpsCompact x ++ ", " ++ dumpsCompactArr xs

/-- Comma-and-space separated compact members of an object. -/
def dumpsCompactObj : List (String × Json) → String
  | [] => ""
  | [(k, v)] => dumpsStr k ++ ": " ++ dumpsCompact v
  | (k, v) :: kvs => dumpsStr k ++ ": " ++ dumpsCompact v ++ ", " ++ dumpsCompactObj kvs

end

/-- A run of `2 * lvl` spaces, the indentation of nesting level `lvl`. -/
def pad (lvl : Nat) : String :=
  String.mk (List.replicate (2 * lvl) (Char.ofNat 32))

mutual

/-- Python `json.dumps(v, indent=2)` at nesting level `lvl`: every array
item and object member on its own line, indented two spaces per level;
empty containers stay on one line. -/
def dumpsInd : Json → Nat → String
  | .arr [], _ => "[]"
  | .arr (x :: xs), lvl =>
      "[\n" ++ dumpsIndArr (x :: xs) (lvl + 1) ++ "\n" ++ pad lvl ++ "]"
  | .obj [], _ => "\x7b\x7d"
  | .obj (kv :: kvs), lvl =>
      "\x7b\n" ++ dumpsIndObj (kv :: kvs) (lvl + 1) ++ "\n" ++ pad lvl ++ "\x7d"
  | v, _ => dumpsAtom v

/-- The lines of the items of a non-empty array, each indented to `lvl`
and separated by a comma and a newline. -/
def dumpsIndArr : List Json → Nat → String
  | [], _ => ""
  | [x], lvl => pad lvl ++ dumpsInd x lvl
  | x :: xs, lvl => pad lvl ++ dumpsInd x lvl ++ ",\n" ++ dumpsIndArr xs lvl

/-- The lines of the members of a non-empty object, each indented to `lvl`
and separated by a comma and a newline. -/
def dumpsIndObj : List (String × Json) → Nat → String
  | [], _ => ""
  | [(k, v)], lvl => pad lvl ++ dumpsStr k ++ ": " ++ dumpsInd v lvl
  | (k, v) :: kvs, lvl =>
      pad lvl ++ dumpsStr k ++ ": " ++ dumpsInd v lvl ++ ",\n" ++ dumpsIndObj kvs lvl

end

/-- Translation of `FinanceAnalyst.analyze` (analyst.py lines 51-80). The
task type is classified from the prompt once, before the generation call.
The network call together with `json.loads` of the returned text is the
`generated` parameter: `.error ()` is a raised exception or unparseable
text. The whole `try` block, including `_format_response`, is guarded: any
error falls through to the compact serialization of the fallback response,
while success serializes the formatted response with two-space indent. -/
def analyze (prompt : String) (generated : Except Unit Json) : String :=
  let taskType := detectTaskType prompt
  match (do
    let parsed ← generated
    formatResponse parsed taskType : Except Unit Json) with
  | .ok formatted => dumpsInd formatted 0
  | .error _ => dumpsCompact (getFallbackResponse taskType)

/-- The closed set of twelve risk category names listed in the
risk-classification instruction template (analyst.py lines 108-119). -/
def riskCategories : List String :=
  ["Market Risk", "Operational Risk", "Financial Risk", "Legal/Regulatory Risk",
   "Technology Risk", "Cybersecurity Risk", "Competition Risk", "Supply Chain Risk",
   "Human Capital/Talent Risk", "Environmental/Climate Risk",
   "COVID-19/Pandemic Risk", "Geopolitical Risk"]

/-- Translation of `FinanceAnalyst._get_system_prompt` (analyst.py lines
101-162): three fixed instruction templates, selected by task type. -/
def getSystemPrompt : TaskType → String
  | .riskClassification =>
      "You are a financial risk analyst. Analyze the provided 10-K Risk Factors section.\n\nClassify the risks into these predefined categories (only use these exact names):\n- Market Risk\n- Operational Risk\n- Financial Risk\n- Legal/Regulatory Risk\n- Technology Risk\n- Cybersecurity Risk\n- Competition Risk\n- Supply Chain Risk\n- Human Capital/Talent Risk\n- Environmental/Climate Risk\n- COVID-19/Pandemic Risk\n- Geopolitical Risk\n\nReturn a JSON object with:\n\x7b\n  \"task\": \"risk_classification\",\n  \"risk_classification\": [\"Category 1\", \"Category 2\", ...]\n\x7d\n\nOnly include categories that are clearly mentioned in the text. Be precise."
  | .businessSummary =>
      "You are a business analyst. Analyze the provided 10-K Business section.\n\nExtract key information about:\n1. Industry/sector the company operates in\n2. Main products or services offered\n3. Geographic markets served\n\nReturn a JSON object with:\n\x7b\n  \"task\": \"business_summary\",\n  \"business_summary\": \x7b\n    \"industry\": \"Detailed industry description\",\n    \"products\": \"Main products and services\",\n    \"geography\": \"Geographic markets\"\n  \x7d\n\x7d\n\nBe specific and detailed in your responses."
  | .consistencyCheck =>
      "You are a financial document analyst. You are given:\n1. A list of risks from Section 1A\n2. The MD&A Section 7 text\n\nIdentify which of the listed risks are actually discussed in Section 7.\n\nReturn a JSON object with:\n\x7b\n  \"task\": \"consistency_check\",\n  \"consistency_check\": [\"risk1\", \"risk2\", ...]\n\x7d\n\nOnly include risks that are clearly discussed in Section 7."

/-- The task lifecycle states of the host framework used by the executor. -/
inductive TaskState where
  | submitted : TaskState
  | working : TaskState
  | completed : TaskState
  | canceled : TaskState
  | failed : TaskState
  | rejected : TaskState
deriving DecidableEq

/-- Translation of `AnalystExecutor.TERMINAL_STATES` (analyst.py lines
225-230). -/
def TERMINAL_STATES : List TaskState :=
  [.completed, .canceled, .failed, .rejected]

/-- A task as the executor sees it: identity, conversation context and
current lifecycle state. -/
structure TaskObj where
  id : String
  contextId : String
  state : TaskState

/-- An observable effect emitted by `AnalystExecutor.execute` through the
event queue and the task updater. -/
inductive Event where
  | taskCreated (id contextId : String) : Event
  | statusUpdate (id : String) (s : TaskState) (msg : Option String) : Event
  | artifactAdded (id name text : String) : Event
deriving DecidableEq

/-- The events of the body of `execute` after the early returns: start
work, announce the analysis, attach the result artifact, complete. -/
def workEvents (tid : String) (analysisResult : String) : List Event :=
  [.statusUpdate tid .working none,
   .statusUpdate tid .working (some "Analyzing financial document..."),
   .artifactAdded tid "FinancialAnalysis" analysisResult,
   .statusUpdate tid .completed none]

/-- Translation of the observable event trace of
`AnalystExecutor.execute` (analyst.py lines 236-278) on its successful
paths: no message means an immediate return; an existing task in a
terminal state is ignored; a missing task is created (with host-generated
identifiers `freshId`, `freshCtx`) and announced; otherwise the work body
runs with the analysis result, which `FinanceAnalyst.analyze` provides
without raising. -/
def executeEvents (message : Option String) (currentTask : Option TaskObj)
    (freshId freshCtx : String) (analysisResult : String) : List Event :=
  match message with
  | none => []
  | some _ =>
    match currentTask with
    | some task =>
        if TERMINAL_STATES.contains task.state then []
        else workEvents task.id analysisResult
    | none =>
        .taskCreated freshId freshCtx :: workEvents freshId analysisResult

/-- The lifecycle state of task `tid` after the status updates in `evs`
have been applied, starting from `init`. -/
def applyEvents (tid : String) (init : TaskState) (evs : List Event) : TaskState :=
  evs.foldl (fun s e =>
    match e with
    | .statusUpdate i st _ => if i = tid then st else s
    | _ => s) init

/-- Stated from the specification for comparison (claim C2): the five
classification rules as an ordered table of predicate and result pairs,
evaluated over the lowered prompt. -/
def specRules : List ((String → Bool) × TaskType) :=
  [(fun p => containsSub p "task 1" || containsSub p "risk classification",
    .riskClassification),
   (fun p => containsSub p "task 2" || containsSub p "business summary",
    .businessSummary),
   (fun p => containsSub p "task 3" || containsSub p "consistency",
    .consistencyCheck),
   (fun p => containsSub p "risk factor" || containsSub p "section 1a",
    .riskClassification),
   (fun p => containsSub p "business" && containsSub p "section 1",
    .businessSummary)]

/-- Stated from the specification for comparison (claim C2): classify by
the lowest-indexed matching rule of the table, defaulting to risk
classification when no rule matches. -/
def specCascadeClassify (prompt : String) : TaskType :=
  let p := strLower prompt
  match specRules.find? (fun r => r.1 p) with
  | some r => r.2
  | none => .riskClassification

/-- Stated from the claim wording of C3 for comparison: the value of the
first PRESENT key of `keys` in `kvs`, or an empty sequence when none of
the keys is present. -/
def firstPresentVal (kvs : List (String × Json)) (keys : List String) : Json :=
  match keys with
  | [] => .arr []
  | k :: rest =>
    match lookupKey kvs k with
    | some v => v
    | none => firstPresentVal kvs rest

/-- The value of the first key of `keys` whose value in `kvs` is truthy,
or an empty sequence when no key holds a truthy value. This is what the
Python `or` chains of `_format_response` compute. -/
def firstTruthyVal (kvs : List (String × Json)) (keys : List String) : Json :=
  match keys with
  | [] => .arr []
  | k :: rest =>
    match lookupKey kvs k with
    | some v => if v.truthy then v else firstTruthyVal kvs rest
    | none => firstTruthyVal kvs rest

/-- Stated from the claim wording of C4 for comparison: use the nested
business summary object whenever the key is PRESENT, else the top-level
object, then read the three fields with default substituted for missing
keys. -/
def specBusinessPresent (parsed : Json) : Except Unit Json :=
  match parsed with
  | .obj kvs =>
    let summary := match lookupKey kvs "business_summary" with
      | some v => v
      | none => parsed
    match summary with
    | .obj skvs =>
        .ok (.obj [("task", .str "business_summary"),
                   ("business_summary",
                    .obj [("industry", (lookupKey skvs "industry").getD (.str "N/A")),
                          ("products", (lookupKey skvs "products").getD (.str "N/A")),
                          ("geography", (lookupKey skvs "geography").getD (.str "N/A"))])])
    | _ => .error ()
  | _ => .error ()

/-- The summary object selected by the amended wording of C4: the value
under the business summary key when it is present and truthy, else the
top-level object itself. -/
def selectedSummary (kvs : List (String × Json)) : Json :=
  match lookupKey kvs "business_summary" with
  | some v => if v.truthy then v else .obj kvs
  | none => .obj kvs

/-- Stated from the amended wording of C4 for comparison: use the nested
business summary value only when it is present AND truthy, else the
top-level object; error when the selected summary is not a mapping. -/
def specBusinessTruthy (parsed : Json) : Except Unit Json :=
  match parsed with
  | .obj kvs =>
    match selectedSummary kvs with
    | .obj skvs =>
        .ok (.obj [("task", .str "business_summary"),
                   ("business_summary",
                    .obj [("industry", (lookupKey skvs "industry").getD (.str "N/A")),
                          ("products", (lookupKey skvs "products").getD (.str "N/A")),
                          ("geography", (lookupKey skvs "geography").getD (.str "N/A"))])])
    | _ => .error ()
  | _ => .error ()

end FinanceAgent

namespace FinanceAgent

/-! ## General lemmas about the embedded operations -/

/-- Bind on a successful `Except` computation runs the continuation. -/
theorem okBind {α β : Type} (x : α) (f : α → Except Unit β) :
    (Except.ok x >>= f : Except Unit β) = f x := rfl

/-- Bind on a failed `Except` computation propagates the failure. -/
theorem errBind {α β : Type} (f : α → Except Unit β) :
    ((Except.error () : Except Unit α) >>= f) = Except.error () := rfl

/-- A three-step Python `or` chain over dictionary lookups, defaulting to
an empty list, computes the first truthy candidate value. -/
theorem chain3 (kvs : List (String × Json)) (k1 k2 k3 : String) :
    pyOr (pyOr (pyOr ((lookupKey kvs k1).getD .null) ((lookupKey kvs k2).getD .null))
               ((lookupKey kvs k3).getD .null)) (.arr [])
      = firstTruthyVal kvs [k1, k2, k3] := by
  rcases h1 : lookupKey kvs k1 with _ | v1 <;>
  rcases h2 : lookupKey kvs k2 with _ | v2 <;>
  rcases h3 : lookupKey kvs k3 with _ | v3 <;>
  simp only [firstTruthyVal, h1, h2, h3, pyOr, Option.getD, Json.truthy] <;>
  split_ifs <;> simp_all [Json.truthy]

/-- The risk-classification branch of `formatResponse` on a dictionary
computes the first truthy candidate among its three accepted field names. -/
theorem risk_firstTruthy (kvs : List (String × Json)) :
    formatResponse (.obj kvs) .riskClassification =
      .ok (.obj [("task", .str "risk_classification"),
                 ("risk_classification",
                  firstTruthyVal kvs ["risk_classification", "categories", "risk_categories"])]) := by
  simp only [formatResponse, Json.pyGet, okBind, chain3]
  rfl

/-- The consistency-check branch of `formatResponse` on a dictionary
computes the first truthy candidate among its three accepted field names. -/
theorem cons_firstTruthy (kvs : List (String × Json)) :
    formatResponse (.obj kvs) .consistencyCheck =
      .ok (.obj [("task", .str "consistency_check"),
                 ("consistency_check",
                  firstTruthyVal kvs ["consistency_check", "discussed_risks", "consistent_risks"])]) := by
  simp only [formatResponse, Json.pyGet, okBind, chain3]
  rfl

/-- The business-summary branch of `formatResponse` agrees everywhere with
the truthiness-based summary selection `specBusinessTruthy`. -/
theorem biz_truthy (parsed : Json) :
    formatResponse parsed .businessSummary = specBusinessTruthy parsed := by
  cases parsed with
  | obj kvs =>
    simp only [formatResponse, Json.pyGet, okBind]
    rcases h : lookupKey kvs "business_summary" with _ | v
    · simp only [specBusinessTruthy, selectedSummary, h, Option.getD, pyOr, Json.truthy,
                 Bool.false_eq_true, if_false, Json.pyGetD, okBind]
      rcases lookupKey kvs "industry" with _ | vi <;>
      rcases lookupKey kvs "products" with _ | vp <;>
      rcases lookupKey kvs "geography" with _ | vg <;> rfl
    · simp only [specBusinessTruthy, selectedSummary, h, Option.getD]
      by_cases ht : v.truthy
      · simp only [pyOr, ht, if_true]
        cases v with
        | obj skvs =>
            simp only [Json.pyGetD, okBind]
            rcases lookupKey skvs "industry" with _ | vi <;>
            rcases lookupKey skvs "products" with _ | vp <;>
            rcases lookupKey skvs "geography" with _ | vg <;> rfl
        | null => simp [Json.truthy] at ht
        | bool b => rfl
        | num n => rfl
        | str s => rfl
        | arr xs => rfl
      · simp only [pyOr, ht, Bool.false_eq_true, if_false, Json.pyGetD, okBind]
        rcases lookupKey kvs "industry" with _ | vi <;>
        rcases lookupKey kvs "products" with _ | vp <;>
        rcases lookupKey kvs "geography" with _ | vg <;> rfl
  | null => rfl
  | bool b => rfl
  | num n => rfl
  | str s => rfl
  | arr xs => rfl

/-- A successful `specBusinessTruthy` result is an object with exactly the
task field and the business summary payload. -/
theorem specBiz_two_keys (parsed r : Json)
    (h : specBusinessTruthy parsed = .ok r) :
    ∃ payload, r = .obj [("task", .str "business_summary"), ("business_summary", payload)] := by
  cases parsed with
  | obj kvs =>
      simp only [specBusinessTruthy] at h
      rcases hs : selectedSummary kvs with _ | b | n | s | xs | skvs <;> rw [hs] at h
      · exact Except.noConfusion h
      · exact Except.noConfusion h
      · exact Except.noConfusion h
      · exact Except.noConfusion h
      · exact Except.noConfusion h
      · injection h with h2
        exact ⟨_, h2.symm⟩
  | null => exact Except.noConfusion h
  | bool b => exact Except.noConfusion h
  | num n => exact Except.noConfusion h
  | str s => exact Except.noConfusion h
  | arr xs => exact Except.noConfusion h

/-- Every successful `formatResponse` result is an object with exactly two
members: the task field and the payload field named after the task type. -/
theorem formatOk_two_keys (parsed : Json) (t : TaskType) (r : Json)
    (h : formatResponse parsed t = .ok r) :
    ∃ payload, r = .obj [("task", .str t.toStr), (t.payloadKey, payload)] := by
  cases t with
  | riskClassification =>
    cases parsed with
    | obj kvs =>
        rw [risk_firstTruthy] at h
        exact ⟨_, (Except.ok.inj h).symm⟩
    | null => exact Except.noConfusion h
    | bool b => exact Except.noConfusion h
    | num n => exact Except.noConfusion h
    | str s => exact Except.noConfusion h
    | arr xs => exact Except.noConfusion h
  | consistencyCheck =>
    cases parsed with
    | obj kvs =>
        rw [cons_firstTruthy] at h
        exact ⟨_, (Except.ok.inj h).symm⟩
    | null => exact Except.noConfusion h
    | bool b => exact Except.noConfusion h
    | num n => exact Except.noConfusion h
    | str s => exact Except.noConfusion h
    | arr xs => exact Except.noConfusion h
  | businessSummary =>
    rw [biz_truthy] at h
    exact specBiz_two_keys parsed r h

set_option maxRecDepth 10000 in
/-- The twelve risk category names are exactly the ones listed inside the
risk-classification instruction template. -/
theorem cats_listed :
    riskCategories.length = 12 ∧
    riskCategories.all (fun c => containsSub (getSystemPrompt .riskClassification) c) = true := by
  constructor
  · rfl
  · decide

end FinanceAgent

namespace FinanceAgent

/-! ## Theorems for the claims -/

set_option maxRecDepth 10000 in
/-- Claim C1: whenever the generation call fails or its text is not
parseable as JSON, `analyze` raises nothing (it is a total function of the
failure outcome) and returns the compact JSON serialization of the
documented fallback response for the task type classified from the prompt,
which is one of exactly three fixed strings. -/
theorem claim1_analyze_absorbs_failure (prompt : String) :
    analyze prompt (Except.error ()) =
      dumpsCompact (getFallbackResponse (detectTaskType prompt)) ∧
    (analyze prompt (Except.error ()) =
      "\x7b\"task\": \"risk_classification\", \"risk_classification\": [\"Market Risk\", \"Operational Risk\"]\x7d" ∨
     analyze prompt (Except.error ()) =
      "\x7b\"task\": \"business_summary\", \"business_summary\": \x7b\"industry\": \"Unable to determine\", \"products\": \"Unable to determine\", \"geography\": \"Unable to determine\"\x7d\x7d" ∨
     analyze prompt (Except.error ()) =
      "\x7b\"task\": \"consistency_check\", \"consistency_check\": []\x7d") := by
  refine ⟨rfl, ?_⟩
  have hb : analyze prompt (Except.error ()) =
      dumpsCompact (getFallbackResponse (detectTaskType prompt)) := rfl
  rcases h : detectTaskType prompt with _ | _ | _
  · left
    rw [hb, h]
    decide
  · right; left
    rw [hb, h]
    decide
  · right; right
    rw [hb, h]
    decide

/-- Claim C2: classification is a pure function of the input text that
implements the five-rule priority cascade by case-insensitive substring
matching, always returning the result of the lowest-indexed matching rule
of the ordered rule table, with risk classification as the default. -/
theorem claim2_classify_priority_cascade (prompt : String) :
    detectTaskType prompt = specCascadeClassify prompt := by
  unfold detectTaskType specCascadeClassify specRules
  simp only [List.find?]
  by_cases h1 : (containsSub (strLower prompt) "task 1" || containsSub (strLower prompt) "risk classification") = true <;>
  by_cases h2 : (containsSub (strLower prompt) "task 2" || containsSub (strLower prompt) "business summary") = true <;>
  by_cases h3 : (containsSub (strLower prompt) "task 3" || containsSub (strLower prompt) "consistency") = true <;>
  by_cases h4 : (containsSub (strLower prompt) "risk factor" || containsSub (strLower prompt) "section 1a") = true <;>
  by_cases h5 : (containsSub (strLower prompt) "business" && containsSub (strLower prompt) "section 1") = true <;>
  simp only [Bool.not_eq_true] at h1 h2 h3 h4 h5 <;>
  simp only [h1, h2, h3, h4, h5] <;> rfl

/-- Claim C3 counterexample: on a parsed object whose first candidate key
is present with an empty list while the second candidate holds data, the
code does NOT return the value of the first present key: it skips the
falsy empty list and returns the second value, so selection is by
truthiness, not by presence. -/
theorem claim3_first_present_cex :
    firstPresentVal
        [("risk_classification", Json.arr []), ("categories", Json.arr [Json.str "Market Risk"])]
        ["risk_classification", "categories", "risk_categories"] = Json.arr [] ∧
    formatResponse
        (.obj [("risk_classification", Json.arr []), ("categories", Json.arr [Json.str "Market Risk"])])
        .riskClassification =
      .ok (.obj [("task", Json.str "risk_classification"),
                 ("risk_classification", Json.arr [Json.str "Market Risk"])]) ∧
    Json.arr [Json.str "Market Risk"] ≠ Json.arr [] := by
  refine ⟨rfl, rfl, ?_⟩
  simp

/-- Claim C3 as amended: for the list-payload task types, `formatResponse`
selects the value of the first candidate key whose value is present AND
truthy (Python `or` semantics), and uses the empty sequence when no
candidate value is truthy; the candidate orders are as documented. -/
theorem claim3_first_truthy_selection (kvs : List (String × Json)) :
    formatResponse (.obj kvs) .riskClassification =
      .ok (.obj [("task", .str "risk_classification"),
                 ("risk_classification",
                  firstTruthyVal kvs ["risk_classification", "categories", "risk_categories"])]) ∧
    formatResponse (.obj kvs) .consistencyCheck =
      .ok (.obj [("task", .str "consistency_check"),
                 ("consistency_check",
                  firstTruthyVal kvs ["consistency_check", "discussed_risks", "consistent_risks"])]) :=
  ⟨risk_firstTruthy kvs, cons_firstTruthy kvs⟩

/-- Claim C4 counterexample: on input where the business summary key is
present but holds an empty (falsy) object while the top level carries an
industry field, the claim as stated would use the nested object and yield
industry N/A, but the code falls back to the top-level object and yields
industry Tech. -/
theorem claim4_nested_present_cex :
    specBusinessPresent (.obj [("business_summary", Json.obj []), ("industry", Json.str "Tech")]) =
      .ok (.obj [("task", Json.str "business_summary"),
                 ("business_summary", .obj [("industry", Json.str "N/A"),
                                            ("products", Json.str "N/A"),
                                            ("geography", Json.str "N/A")])]) ∧
    formatResponse (.obj [("business_summary", Json.obj []), ("industry", Json.str "Tech")])
        .businessSummary =
      .ok (.obj [("task", Json.str "business_summary"),
                 ("business_summary", .obj [("industry", Json.str "Tech"),
                                            ("products", Json.str "N/A"),
                                            ("geography", Json.str "N/A")])]) ∧
    Json.str "Tech" ≠ Json.str "N/A" := by
  refine ⟨rfl, rfl, ?_⟩
  simp

/-- Claim C4 as amended: under the business summary task type the code
uses the nested business summary value only when it is present AND truthy,
otherwise it treats the top-level object as the summary, and reads the
three fields with N/A substituted for each missing key (raising, hence
falling to the caller guard, when the selected summary is not a mapping). -/
theorem claim4_business_truthy (parsed : Json) :
    formatResponse parsed .businessSummary = specBusinessTruthy parsed :=
  biz_truthy parsed

/-- Claim C5: every successful normalization result is an object with
exactly two members, the task field holding the task type string and the
single payload field named after that task type; no other key of the raw
input appears at the top level. -/
theorem claim5_exactly_task_and_payload (parsed : Json) (t : TaskType) (r : Json)
    (h : formatResponse parsed t = .ok r) :
    ∃ payload, r = .obj [("task", .str t.toStr), (t.payloadKey, payload)] :=
  formatOk_two_keys parsed t r h

/-- Witness for claim C5 at a concrete input: the empty object under the
risk classification task type. -/
theorem claim5_witness :
    ∃ payload,
      Json.obj [("task", Json.str "risk_classification"), ("risk_classification", Json.arr [])] =
        Json.obj [("task", Json.str TaskType.riskClassification.toStr),
                  (TaskType.riskClassification.payloadKey, payload)] :=
  claim5_exactly_task_and_payload (Json.obj []) .riskClassification
    (Json.obj [("task", Json.str "risk_classification"), ("risk_classification", Json.arr [])]) rfl

/-- Claim C6: the fallback response is fixed per task type exactly as the
documented table states, and on a failed generation outcome `analyze`
serializes the fallback selected by the task type classified from the
prompt before the call (classification being deterministic, no second
classification can differ). -/
theorem claim6_fallback_table (prompt : String) :
    getFallbackResponse .riskClassification =
      .obj [("task", .str "risk_classification"),
            ("risk_classification", .arr [.str "Market Risk", .str "Operational Risk"])] ∧
    getFallbackResponse .businessSummary =
      .obj [("task", .str "business_summary"),
            ("business_summary", .obj [("industry", .str "Unable to determine"),
                                       ("products", .str "Unable to determine"),
                                       ("geography", .str "Unable to determine")])] ∧
    getFallbackResponse .consistencyCheck =
      .obj [("task", .str "consistency_check"), ("consistency_check", .arr [])] ∧
    analyze prompt (Except.error ()) =
      dumpsCompact (getFallbackResponse (detectTaskType prompt)) :=
  ⟨rfl, rfl, rfl, rfl⟩

/-- Claim C7: an inbound message for an existing task in a terminal state
(completed, failed, canceled or rejected) is ignored: `execute` emits no
event, adds no artifact, and leaves the task state unchanged. -/
theorem claim7_terminal_ignored (msg : String) (task : TaskObj) (fid fctx res : String)
    (h : task.state = .completed ∨ task.state = .failed ∨
         task.state = .canceled ∨ task.state = .rejected) :
    executeEvents (some msg) (some task) fid fctx res = [] ∧
    applyEvents task.id task.state (executeEvents (some msg) (some task) fid fctx res)
      = task.state := by
  have hm : task.state ∈ TERMINAL_STATES := by
    rcases h with h | h | h | h <;> simp [TERMINAL_STATES, h]
  constructor
  · simp [executeEvents, hm]
  · simp [executeEvents, hm, applyEvents]

/-- Witness for claim C7 at a concrete completed task. -/
theorem claim7_witness :
    executeEvents (some "analyze this")
        (some (TaskObj.mk "t1" "c1" TaskState.completed)) "f1" "fc1" "out" = [] ∧
    applyEvents "t1" TaskState.completed
        (executeEvents (some "analyze this")
          (some (TaskObj.mk "t1" "c1" TaskState.completed)) "f1" "fc1" "out")
      = TaskState.completed :=
  claim7_terminal_ignored "analyze this" (TaskObj.mk "t1" "c1" TaskState.completed)
    "f1" "fc1" "out" (Or.inl rfl)

end FinanceAgent

namespace FinanceAgent

set_option maxRecDepth 10000 in
/-- Claim C8 counterexample: the code performs no membership validation
against the closed category set: a parsed response whose category list
contains a string outside the twelve documented names is serialized into
the result of `analyze` unchanged. -/
theorem claim8_unvalidated_category_cex :
    analyze "task 1"
        (.ok (.obj [("risk_classification", Json.arr [Json.str "Totally Novel Risk"])])) =
      dumpsInd (.obj [("task", Json.str "risk_classification"),
                      ("risk_classification", Json.arr [Json.str "Totally Novel Risk"])]) 0 ∧
    riskCategories.contains "Totally Novel Risk" = false := by
  exact ⟨by decide, by decide⟩

/-- Claim C8 as amended: under the risk classification task type the
payload is copied verbatim from the first truthy candidate field of the
parsed service output, with no validation of its elements against the
closed category set; that set of twelve names is communicated only through
the instruction template, which lists all twelve. -/
theorem claim8_passthrough_no_validation (v : Json) (hv : v.truthy = true) :
    formatResponse (.obj [("risk_classification", v)]) .riskClassification =
      .ok (.obj [("task", .str "risk_classification"), ("risk_classification", v)]) ∧
    riskCategories.length = 12 ∧
    riskCategories.all (fun c => containsSub (getSystemPrompt .riskClassification) c) = true := by
  refine ⟨?_, cats_listed.1, cats_listed.2⟩
  rw [risk_firstTruthy]
  simp [firstTruthyVal, lookupKey, hv]

/-- Witness for claim C8 at a concrete truthy payload outside the closed
category set. -/
theorem claim8_witness :
    formatResponse (.obj [("risk_classification", Json.arr [Json.str "Bogus Risk"])])
        .riskClassification =
      .ok (.obj [("task", Json.str "risk_classification"),
                 ("risk_classification", Json.arr [Json.str "Bogus Risk"])]) ∧
    riskCategories.length = 12 ∧
    riskCategories.all (fun c => containsSub (getSystemPrompt .riskClassification) c) = true :=
  claim8_passthrough_no_validation (Json.arr [Json.str "Bogus Risk"]) rfl

set_option maxRecDepth 10000 in
/-- Claim C9 counterexample: the string produced on the fallback path is
the compact serialization, which differs from the two-space-indented
serialization of the very fallback object it encodes, so not every string
produced by `analyze` is two-space indented. -/
theorem claim9_fallback_compact_cex :
    analyze "task 1" (Except.error ()) =
      "\x7b\"task\": \"risk_classification\", \"risk_classification\": [\"Market Risk\", \"Operational Risk\"]\x7d" ∧
    dumpsInd (getFallbackResponse (detectTaskType "task 1")) 0 =
      "\x7b\n  \"task\": \"risk_classification\",\n  \"risk_classification\": [\n    \"Market Risk\",\n    \"Operational Risk\"\n  ]\n\x7d" ∧
    ("\x7b\"task\": \"risk_classification\", \"risk_classification\": [\"Market Risk\", \"Operational Risk\"]\x7d" : String) ≠
      "\x7b\n  \"task\": \"risk_classification\",\n  \"risk_classification\": [\n    \"Market Risk\",\n    \"Operational Risk\"\n  ]\n\x7d" := by
  refine ⟨by decide, by decide, by decide⟩

/-- Claim C9 as amended: the success path serializes the formatted
response with two-space indentation, while the fallback path serializes
the fallback response compactly (no indentation); in both cases the
serialized value is a single top-level object. -/
theorem claim9_serialization_modes (prompt : String) (parsed r : Json)
    (h : formatResponse parsed (detectTaskType prompt) = .ok r) :
    analyze prompt (.ok parsed) = dumpsInd r 0 ∧
    (∃ kvs, r = Json.obj kvs) ∧
    analyze prompt (Except.error ()) =
      dumpsCompact (getFallbackResponse (detectTaskType prompt)) ∧
    (∃ kvs, getFallbackResponse (detectTaskType prompt) = Json.obj kvs) := by
  refine ⟨?_, ?_, rfl, ?_⟩
  · unfold analyze
    simp only [okBind, h]
  · rcases formatOk_two_keys parsed (detectTaskType prompt) r h with ⟨payload, hp⟩
    exact ⟨_, hp⟩
  · rcases detectTaskType prompt with _ | _ | _
    · exact ⟨_, rfl⟩
    · exact ⟨_, rfl⟩
    · exact ⟨_, rfl⟩

/-- Witness for claim C9 at a concrete prompt and parsed value. -/
theorem claim9_witness :
    analyze "task 1" (.ok (Json.obj [])) =
      dumpsInd (Json.obj [("task", Json.str "risk_classification"),
                          ("risk_classification", Json.arr [])]) 0 ∧
    (∃ kvs, Json.obj [("task", Json.str "risk_classification"),
                      ("risk_classification", Json.arr [])] = Json.obj kvs) ∧
    analyze "task 1" (Except.error ()) =
      dumpsCompact (getFallbackResponse (detectTaskType "task 1")) ∧
    (∃ kvs, getFallbackResponse (detectTaskType "task 1") = Json.obj kvs) :=
  claim9_serialization_modes "task 1" (Json.obj [])
    (Json.obj [("task", Json.str "risk_classification"), ("risk_classification", Json.arr [])])
    rfl

/-- Claim C10: when the generation service returns syntactically valid
JSON whose shape makes normalization raise (a non-object top level, or a
truthy non-mapping business summary), `analyze` still returns the compact
fallback serialization for the already-classified task type, because the
guard around the whole try block also absorbs normalization errors. -/
theorem claim10_format_error_absorbed (prompt : String) (parsed : Json)
    (h : formatResponse parsed (detectTaskType prompt) = .error ()) :
    analyze prompt (.ok parsed) =
      dumpsCompact (getFallbackResponse (detectTaskType prompt)) := by
  unfold analyze
  simp only [okBind, h]

set_option maxRecDepth 10000 in
/-- Witness for claim C10 at a concrete input: a business summary task
whose parsed output holds a truthy non-mapping under the business summary
key. -/
theorem claim10_witness :
    analyze "task 2" (.ok (Json.obj [("business_summary", Json.str "oops")])) =
      dumpsCompact (getFallbackResponse (detectTaskType "task 2")) :=
  claim10_format_error_absorbed "task 2" (Json.obj [("business_summary", Json.str "oops")])
    rfl

end FinanceAgent
